import Mathlib

/-!
Verification of the egui_speedy2d adapter layer (src/src/lib.rs).

The repository is a translation layer between the egui immediate-mode GUI
library and the speedy2d 2D rendering framework.  This file gives a shallow
embedding of the data model and the operations of `WindowWrapper`:

* geometry/color/event types as used by the adapter (f32 coordinates are
  embedded as exact rationals, so the sign test on the triangle cross
  product is read in exact arithmetic);
* the pure translation functions (`key_from_speedy2d`,
  `modifiers_from_speedy2d`, `pos_from_uvec2`, ...);
* the per-frame draw pipeline of `WindowWrapper::draw` /
  `set_textures` / `free_textures` as an explicit state-passing function
  returning `Option` (where `none` stands for the fatal conditions the
  source reaches through `todo` markers or a failed `unwrap`);
* the event callbacks of the `speedy2d::window::WindowHandler`
  implementation that mutate the pending `RawInput` buffer.

The collaborating libraries (egui, speedy2d) are not part of the
repository; the small pieces of their behavior the claims depend on
(`RawInput::take`, the tessellator being an opaque producer of clipped
primitives, texture creation returning a fresh handle) are modelled from
the specification of the collaborators in spec.md sections 4.2 and 6.
-/

namespace EguiSpeedy2d

/-- egui screen position (`egui::Pos2`); the f32 coordinates of the source
are embedded as exact rationals. -/
structure Pos2 where
  x : ℚ
  y : ℚ
deriving DecidableEq

/-- egui 8-bit RGBA color (`epaint::Color32`). -/
structure Color32 where
  r : ℕ
  g : ℕ
  b : ℕ
  a : ℕ
deriving DecidableEq

/-- egui rectangle (`egui::Rect`) given by min and max corner. -/
structure Rect where
  min : Pos2
  max : Pos2
deriving DecidableEq

/-- epaint mesh vertex: position, texture coordinates and color. -/
structure Vertex where
  pos : Pos2
  uv : Pos2
  color : Color32
deriving DecidableEq

/-- A fixed default vertex, standing in for the out-of-bounds behavior of
`vertices[*i as usize]`; the theorems about meshes assume in-bounds
indices. -/
def defaultVertex : Vertex :=
  { pos := ⟨0, 0⟩, uv := ⟨0, 0⟩, color := ⟨0, 0, 0, 0⟩ }

/-- `egui::TextureId`: either managed by the egui texture allocator or
supplied by the user. -/
inductive TextureId
  | managed (id : ℕ)
  | user (id : ℕ)
deriving DecidableEq

/-- speedy2d float vector (`speedy2d::dimen::Vec2`), embedded exactly. -/
structure Vec2 where
  x : ℚ
  y : ℚ
deriving DecidableEq

/-- speedy2d unsigned integer vector (`speedy2d::dimen::UVec2`). -/
structure UVec2 where
  x : ℕ
  y : ℕ
deriving DecidableEq

/-- speedy2d integer vector (`speedy2d::dimen::IVec2`). -/
structure IVec2 where
  x : ℤ
  y : ℤ
deriving DecidableEq

/-- speedy2d integer rectangle (`speedy2d::shape::Rectangle<i32>`). -/
structure IRect where
  top_left : IVec2
  bottom_right : IVec2
deriving DecidableEq

/-- speedy2d color built by `Color::from_int_rgba` from four 8-bit
channels. -/
structure SColor where
  r : ℕ
  g : ℕ
  b : ℕ
  a : ℕ
deriving DecidableEq

/-- speedy2d keyboard modifier snapshot (`speedy2d::window::ModifiersState`,
with its `ctrl`, `alt`, `shift`, `logo` accessors). -/
structure ModifiersState where
  ctrl : Bool
  alt : Bool
  shift : Bool
  logo : Bool
deriving DecidableEq

/-- egui modifier set (`egui::Modifiers`). -/
structure Modifiers where
  alt : Bool
  ctrl : Bool
  shift : Bool
  mac_cmd : Bool
  command : Bool
deriving DecidableEq

/-- egui pointer button identity (`egui::PointerButton`). -/
inductive PointerButton
  | primary
  | secondary
  | middle
deriving DecidableEq

/-- speedy2d mouse button (`speedy2d::window::MouseButton`). -/
inductive MouseButton
  | left
  | right
  | middle
  | other (n : ℕ)
deriving DecidableEq

/-- The egui keys that appear in the image of `key_from_speedy2d`
(`egui::Key`, restricted to the constructors the source names). -/
inductive EguiKey
  | A | B | C | D | E | F | G | H | I | J | K | L | M
  | N | O | P | Q | R | S | T | U | V | W | X | Y | Z
  | Escape | Tab | Backspace | Enter | Space
  | Insert | Delete | Home | End | PageUp | PageDown
  | ArrowLeft | ArrowUp | ArrowRight | ArrowDown
  | F1 | F2 | F3 | F4 | F5 | F6 | F7 | F8 | F9 | F10
  | F11 | F12 | F13 | F14 | F15 | F16 | F17 | F18 | F19 | F20
  | Num0 | Num1 | Num2 | Num3 | Num4 | Num5 | Num6 | Num7 | Num8 | Num9
deriving DecidableEq, Fintype

/-- Host virtual key codes (`speedy2d::window::VirtualKeyCode`): the
variants matched by the source plus the remaining variants of the host
enum, all of which fall into the wildcard arm of the mapping. -/
inductive VirtualKeyCode
  | A | B | C | D | E | F | G | H | I | J | K | L | M
  | N | O | P | Q | R | S | T | U | V | W | X | Y | Z
  | Escape
  | F1 | F2 | F3 | F4 | F5 | F6 | F7 | F8 | F9 | F10
  | F11 | F12 | F13 | F14 | F15 | F16 | F17 | F18 | F19 | F20
  | F21 | F22 | F23 | F24
  | Insert | Home | Delete | End | PageDown | PageUp
  | Left | Up | Right | Down
  | Backspace | Return | Space | Tab
  | Numpad0 | Numpad1 | Numpad2 | Numpad3 | Numpad4
  | Numpad5 | Numpad6 | Numpad7 | Numpad8 | Numpad9
  | Key1 | Key2 | Key3 | Key4 | Key5 | Key6 | Key7 | Key8 | Key9 | Key0
  | Snapshot | Scroll | Pause | Capital | Numlock
  | LShift | RShift | LControl | RControl | LAlt | RAlt | LWin | RWin
  | NumpadAdd | NumpadSubtract | NumpadMultiply | NumpadDivide
  | NumpadDecimal | NumpadEnter
  | Comma | Period | Semicolon | Slash | Backslash | Minus | Equals | Grave
deriving DecidableEq, Fintype

/-- egui input event (`egui::Event`), restricted to the variants the
adapter produces. -/
inductive Event
  | pointerMoved (pos : Pos2)
  | pointerButton (pos : Pos2) (button : PointerButton) (pressed : Bool)
      (modifiers : Modifiers)
  | key (key : EguiKey) (pressed : Bool) (repeat_ : Bool)
      (modifiers : Modifiers) (physical_key : Option EguiKey)
  | text (content : String)
deriving DecidableEq

/-- The pending egui input buffer (`egui::RawInput`, the fields the
adapter touches). -/
structure RawInput where
  screen_rect : Option Rect
  events : List Event
  modifiers : Modifiers
deriving DecidableEq

/-- Collaborator operation (egui `RawInput::take`, spec 4.2 step 1):
returns the accumulated input and leaves an empty buffer behind.  The
first component is what `begin_frame` receives on the next redraw. -/
def RawInput.take (r : RawInput) : RawInput × RawInput :=
  (r, { screen_rect := none, events := [], modifiers := r.modifiers })

/-- CPU-side RGBA pixel copy kept by the adapter (`RgbaImage` in the
source). -/
structure RgbaImage where
  size : ℕ × ℕ
  pixels : List ℕ
deriving DecidableEq

/-- egui image payload of a texture set entry (`egui::ImageData`): a font
atlas image or a plain color image. -/
inductive ImageData
  | font (size : ℕ × ℕ) (srgbaPixels : List Color32)
  | color (size : ℕ × ℕ) (pixels : List Color32)
deriving DecidableEq

/-- `RgbaImage::from` in the source: flatten either image kind into an
RGBA byte list. -/
def RgbaImage.fromImage : ImageData → RgbaImage
  | .font sz ps => { size := sz, pixels := ps.flatMap (fun c => [c.r, c.g, c.b, c.a]) }
  | .color sz ps => { size := sz, pixels := ps.flatMap (fun c => [c.r, c.g, c.b, c.a]) }

/-- egui texture filter options (`egui::TextureOptions`): the two named
constants the source matches, plus any other combination. -/
inductive TextureOptions
  | nearest
  | linear
  | otherOptions
deriving DecidableEq

/-- speedy2d image sampling mode (`speedy2d::image::ImageSmoothingMode`). -/
inductive ImageSmoothingMode
  | nearestNeighbor
  | linear
deriving DecidableEq

/-- The filter-mode match inside `set_textures`: nearest maps to nearest
neighbor, linear to linear, anything else defaults to linear. -/
def smoothing_from_options : TextureOptions → ImageSmoothingMode
  | .nearest => .nearestNeighbor
  | .linear => .linear
  | .otherOptions => .linear

/-- egui per-texture delta (`egui::epaint::ImageDelta`): the image, filter
options, and the optional sub-rectangle position of a partial update. -/
structure ImageDelta where
  image : ImageData
  options : TextureOptions
  pos : Option (ℕ × ℕ)
deriving DecidableEq

/-- egui texture delta of a frame (`egui::TexturesDelta`). -/
structure TexturesDelta where
  set : List (TextureId × ImageDelta)
  free : List TextureId
deriving DecidableEq

/-- epaint triangle mesh (`epaint::Mesh`). -/
structure Mesh where
  indices : List ℕ
  vertices : List Vertex
  texture_id : TextureId
deriving DecidableEq

/-- epaint primitive (`epaint::Primitive`): a mesh or the paint-callback
variant, which the adapter does not implement. -/
inductive Primitive
  | mesh (m : Mesh)
  | callback
deriving DecidableEq

/-- epaint clipped primitive, as produced by the tessellator. -/
structure ClippedPrimitive where
  clip_rect : Rect
  primitive : Primitive
deriving DecidableEq

/-- egui frame output (`egui::FullOutput`, the fields the adapter reads).
The shape list is consumed only by the external tessellator, whose result
enters the model as a `List ClippedPrimitive` parameter. -/
structure FullOutput where
  textures_delta : TexturesDelta
  pixels_per_point : ℚ
deriving DecidableEq

/-- Rust `f32::round`: round half away from zero. -/
def rust_round (x : ℚ) : ℤ :=
  if 0 ≤ x then ⌊x + 1 / 2⌋ else -⌊-x + 1 / 2⌋

/-- `ivec2_from_egui` in the source. -/
def ivec2_from_egui (p : Pos2) : IVec2 :=
  ⟨rust_round p.x, rust_round p.y⟩

/-- `rect_from_egui` in the source. -/
def rect_from_egui (r : Rect) : IRect :=
  ⟨ivec2_from_egui r.min, ivec2_from_egui r.max⟩

/-- `pos_from_uvec2` in the source: cast the pixel size to coordinates. -/
def pos_from_uvec2 (p : UVec2) : Pos2 :=
  ⟨(p.x : ℚ), (p.y : ℚ)⟩

/-- `color_from_egui` in the source. -/
def color_from_egui (c : Color32) : SColor :=
  ⟨c.r, c.g, c.b, c.a⟩

/-- `vec2_from_egui` in the source. -/
def vec2_from_egui (p : Pos2) : Vec2 :=
  ⟨p.x, p.y⟩

/-- `pos2_from_speedy2d` in the source. -/
def pos2_from_speedy2d (v : Vec2) : Pos2 :=
  ⟨v.x, v.y⟩

/-- `modifiers_from_speedy2d` in the source. -/
def modifiers_from_speedy2d (m : ModifiersState) : Modifiers :=
  { alt := m.alt, ctrl := m.ctrl, shift := m.shift,
    mac_cmd := false, command := m.ctrl }

/-- `key_from_speedy2d` in the source, arm for arm; the final two arms are
the wildcard and the absent-key case. -/
def key_from_speedy2d : Option VirtualKeyCode → Option EguiKey
  | some .A => some .A
  | some .B => some .B
  | some .C => some .C
  | some .D => some .D
  | some .E => some .E
  | some .F => some .F
  | some .G => some .G
  | some .H => some .H
  | some .I => some .I
  | some .J => some .J
  | some .K => some .K
  | some .L => some .L
  | some .M => some .M
  | some .N => some .N
  | some .O => some .O
  | some .P => some .P
  | some .Q => some .Q
  | some .R => some .R
  | some .S => some .S
  | some .T => some .T
  | some .U => some .U
  | some .V => some .V
  | some .W => some .W
  | some .X => some .X
  | some .Y => some .Y
  | some .Z => some .Z
  | some .Escape => some .Escape
  | some .F1 => some .F1
  | some .F2 => some .F2
  | some .F3 => some .F3
  | some .F4 => some .F4
  | some .F5 => some .F5
  | some .F6 => some .F6
  | some .F7 => some .F7
  | some .F8 => some .F8
  | some .F9 => some .F9
  | some .F10 => some .F10
  | some .F11 => some .F11
  | some .F12 => some .F12
  | some .F13 => some .F13
  | some .F14 => some .F14
  | some .F15 => some .F15
  | some .F16 => some .F16
  | some .F17 => some .F17
  | some .F18 => some .F18
  | some .F19 => some .F19
  | some .F20 => some .F20
  | some .Insert => some .Insert
  | some .Home => some .Home
  | some .Delete => some .Delete
  | some .End => some .End
  | some .PageDown => some .PageDown
  | some .PageUp => some .PageUp
  | some .Left => some .ArrowLeft
  | some .Up => some .ArrowUp
  | some .Right => some .ArrowRight
  | some .Down => some .ArrowDown
  | some .Backspace => some .Backspace
  | some .Return => some .Enter
  | some .Space => some .Space
  | some .Numpad0 => some .Num0
  | some .Numpad1 => some .Num1
  | some .Numpad2 => some .Num2
  | some .Numpad3 => some .Num3
  | some .Numpad4 => some .Num4
  | some .Numpad5 => some .Num5
  | some .Numpad6 => some .Num6
  | some .Numpad7 => some .Num7
  | some .Numpad8 => some .Num8
  | some .Numpad9 => some .Num9
  | some .Tab => some .Tab
  | some _ => none
  | none => none

/-- Written from the words of the spec (sections 4.1 and 8): the closed
key-mapping table, listing the classes letters A to Z, F1 to F20, numpad
digits 0 to 9, tab, escape, enter, space, backspace, the arrows, insert,
home, delete, end, page-up and page-down; every other input, the absent
key code included, maps to nothing.  Used to compare the source mapping
against the spec sentence of claim C5. -/
def specKeyForHostKey : Option VirtualKeyCode → Option EguiKey
  | some .A => some .A
  | some .B => some .B
  | some .C => some .C
  | some .D => some .D
  | some .E => some .E
  | some .F => some .F
  | some .G => some .G
  | some .H => some .H
  | some .I => some .I
  | some .J => some .J
  | some .K => some .K
  | some .L => some .L
  | some .M => some .M
  | some .N => some .N
  | some .O => some .O
  | some .P => some .P
  | some .Q => some .Q
  | some .R => some .R
  | some .S => some .S
  | some .T => some .T
  | some .U => some .U
  | some .V => some .V
  | some .W => some .W
  | some .X => some .X
  | some .Y => some .Y
  | some .Z => some .Z
  | some .F1 => some .F1
  | some .F2 => some .F2
  | some .F3 => some .F3
  | some .F4 => some .F4
  | some .F5 => some .F5
  | some .F6 => some .F6
  | some .F7 => some .F7
  | some .F8 => some .F8
  | some .F9 => some .F9
  | some .F10 => some .F10
  | some .F11 => some .F11
  | some .F12 => some .F12
  | some .F13 => some .F13
  | some .F14 => some .F14
  | some .F15 => some .F15
  | some .F16 => some .F16
  | some .F17 => some .F17
  | some .F18 => some .F18
  | some .F19 => some .F19
  | some .F20 => some .F20
  | some .Numpad0 => some .Num0
  | some .Numpad1 => some .Num1
  | some .Numpad2 => some .Num2
  | some .Numpad3 => some .Num3
  | some .Numpad4 => some .Num4
  | some .Numpad5 => some .Num5
  | some .Numpad6 => some .Num6
  | some .Numpad7 => some .Num7
  | some .Numpad8 => some .Num8
  | some .Numpad9 => some .Num9
  | some .Tab => some .Tab
  | some .Escape => some .Escape
  | some .Return => some .Enter
  | some .Space => some .Space
  | some .Backspace => some .Backspace
  | some .Left => some .ArrowLeft
  | some .Up => some .ArrowUp
  | some .Right => some .ArrowRight
  | some .Down => some .ArrowDown
  | some .Insert => some .Insert
  | some .Home => some .Home
  | some .Delete => some .Delete
  | some .End => some .End
  | some .PageUp => some .PageUp
  | some .PageDown => some .PageDown
  | some _ => none
  | none => none

/-- The mouse-button match shared by `on_mouse_button_down` and
`on_mouse_button_up` in the source. -/
def pointer_button_from_speedy2d : MouseButton → Option PointerButton
  | .left => some .primary
  | .right => some .secondary
  | .middle => some .middle
  | .other _ => none

/-- Association-table lookup, standing in for `HashMap::get`. -/
def tblLookup {α : Type} (i : ℕ) : List (ℕ × α) → Option α
  | [] => none
  | e :: t => if e.1 = i then some e.2 else tblLookup i t

/-- Association-table removal of all entries for a key, standing in for
`HashMap::remove`. -/
def tblRemove {α : Type} (i : ℕ) : List (ℕ × α) → List (ℕ × α)
  | [] => []
  | e :: t => if e.1 = i then tblRemove i t else e :: tblRemove i t

/-- Association-table insertion with replacement, standing in for
`HashMap::insert`. -/
def tblInsert {α : Type} (i : ℕ) (v : α) (t : List (ℕ × α)) : List (ℕ × α) :=
  (i, v) :: tblRemove i t

/-- Remove every key of the list, standing in for the drain-and-remove
loop of `free_textures`. -/
def tblRemoveAll {α : Type} (ids : List ℕ) (t : List (ℕ × α)) : List (ℕ × α) :=
  ids.foldl (fun acc i => tblRemove i acc) t

/-- The state of `WindowWrapper` that the claims touch: the pending egui
input, the texture table mapping a managed identifier to its host handle
and CPU pixel copy, the deferred-free list, and the last recorded mouse
position and modifier snapshot.  (The boxed user handler and the opaque
egui context hold no data the claims depend on.) -/
structure WrapperState where
  raw_input : RawInput
  id_and_textures : List (ℕ × ℕ × RgbaImage)
  to_free_textures : List ℕ
  last_mouse_position : Vec2
  current_modifiers : ModifiersState
deriving DecidableEq

/-- `WindowWrapper::free_textures`: drain the deferred-free list, removing
each identifier from the texture table. -/
def free_textures (s : WrapperState) : WrapperState :=
  { s with id_and_textures := tblRemoveAll s.to_free_textures s.id_and_textures,
           to_free_textures := [] }

/-- The `filter_map` over the texture delta free list in
`WindowWrapper::draw`: keep managed identifiers, drop user identifiers. -/
def managed_id : TextureId → Option ℕ
  | .managed i => some i
  | .user _ => none

/-- The deferred-free list recorded for the next frame
(`self.to_free_textures = full_output.textures_delta.free ... collect()`). -/
def next_free_list (free : List TextureId) : List ℕ :=
  free.filterMap managed_id

/-- `WindowWrapper::set_textures`, acting on the texture table and a fresh
handle counter standing in for the host `create_image_from_raw_pixels`
allocator: user identifiers are skipped, a managed entry with a partial
update position hits the unimplemented-abort marker (`none`), and a full
replace uploads and stores handle plus CPU copy. -/
def setTexturesTable :
    List (TextureId × ImageDelta) → List (ℕ × ℕ × RgbaImage) → ℕ →
    Option (List (ℕ × ℕ × RgbaImage) × ℕ)
  | [], t, g => some (t, g)
  | (texture_id, image_delta) :: rest, t, g =>
    match texture_id with
    | .user _ => setTexturesTable rest t g
    | .managed i =>
      match image_delta.pos with
      | some _ => none
      | none =>
        setTexturesTable rest
          (tblInsert i (g, RgbaImage.fromImage image_delta.image) t) (g + 1)

/-- A host draw command issued by the adapter: `Graphics2D::set_clip` or
`Graphics2D::draw_triangle_image_tinted_three_color`. -/
inductive DrawCall
  | setClip (r : IRect)
  | triangle (p : Vec2 × Vec2 × Vec2) (colors : SColor × SColor × SColor)
      (uvs : Vec2 × Vec2 × Vec2) (handle : ℕ)
deriving DecidableEq

/-- The cross product of source lines 138-139, on the converted
positions. -/
def cross2 (p0 p1 p2 : Vec2) : ℚ :=
  (p1.x - p0.x) * (p2.y - p0.y) - (p1.y - p0.y) * (p2.x - p0.x)

/-- The triangle-emission loop body of `WindowWrapper::draw` (source lines
130-156): convert the three positions, test the cross product sign
(`is_sign_positive`, read as `0 ≤ cross` in exact arithmetic), swap the
second and third entries of the vertex and position lists together when it
holds, then derive colors and UVs from the (possibly swapped) vertices. -/
def emitTriangle (v0 v1 v2 : Vertex) (handle : ℕ) : DrawCall :=
  let p0 := vec2_from_egui v0.pos
  let p1 := vec2_from_egui v1.pos
  let p2 := vec2_from_egui v2.pos
  let cross := cross2 p0 p1 p2
  let w1 := if 0 ≤ cross then v2 else v1
  let w2 := if 0 ≤ cross then v1 else v2
  let q1 := if 0 ≤ cross then p2 else p1
  let q2 := if 0 ≤ cross then p1 else p2
  DrawCall.triangle (p0, q1, q2)
    (color_from_egui v0.color, color_from_egui w1.color, color_from_egui w2.color)
    (vec2_from_egui v0.uv, vec2_from_egui w1.uv, vec2_from_egui w2.uv)
    handle

/-- `indices.chunks_exact(3)`: complete three-element groups, the
remainder dropped. -/
def chunks3 {α : Type} : List α → List (α × α × α)
  | a :: b :: c :: rest => (a, b, c) :: chunks3 rest
  | _ => []

/-- All triangle draw calls of one mesh: one per three-index group.  The
source indexes the vertex buffer directly (a panic when out of bounds);
here the fetch defaults, and the mesh theorems carry the in-bounds
hypothesis. -/
def meshTriangles (vertices : List Vertex) (indices : List ℕ) (handle : ℕ) :
    List DrawCall :=
  (chunks3 indices).map (fun t =>
    emitTriangle (vertices.getD t.1 defaultVertex)
      (vertices.getD t.2.1 defaultVertex)
      (vertices.getD t.2.2 defaultVertex) handle)

/-- Processing of one clipped primitive (the body of the primitive loop in
`WindowWrapper::draw`): the clip rectangle is set first; a mesh with a
user texture identifier is skipped; a managed identifier is resolved
through the table, a missing entry being the fatal `unwrap`; any non-mesh
primitive hits the unimplemented-abort marker. -/
def primCalls (t : List (ℕ × ℕ × RgbaImage)) (cp : ClippedPrimitive) :
    Option (List DrawCall) :=
  match cp.primitive with
  | .mesh m =>
    match m.texture_id with
    | .user _ => some [DrawCall.setClip (rect_from_egui cp.clip_rect)]
    | .managed i =>
      match tblLookup i t with
      | none => none
      | some hv =>
        some (DrawCall.setClip (rect_from_egui cp.clip_rect) ::
          meshTriangles m.vertices m.indices hv.1)
  | .callback => none

/-- The primitive loop of `WindowWrapper::draw` over the tessellated
batches. -/
def processPrims (t : List (ℕ × ℕ × RgbaImage)) :
    List ClippedPrimitive → Option (List DrawCall)
  | [] => some []
  | cp :: rest =>
    match primCalls t cp with
    | none => none
    | some cs =>
      match processPrims t rest with
      | none => none
      | some cs2 => some (cs ++ cs2)

/-- `WindowWrapper::draw` as a state-passing function.  `g` is the fresh
handle counter of the host texture allocator and `clipped` the result of
the external tessellate call on `full_output.shapes`.  In source order:
free the textures deferred by the previous frame, record this frame's
managed free identifiers for the next frame, process the set entries of
the texture delta, then walk the clipped primitives.  `none` stands for
the fatal conditions (unimplemented primitive kind, partial texture
update, missing managed texture entry). -/
def drawModel (s : WrapperState) (g : ℕ) (out : FullOutput)
    (clipped : List ClippedPrimitive) :
    Option (List DrawCall × WrapperState × ℕ) :=
  let s1 := free_textures s
  let s2 := { s1 with to_free_textures := next_free_list out.textures_delta.free }
  match setTexturesTable out.textures_delta.set s2.id_and_textures g with
  | none => none
  | some (t2, g2) =>
    match processPrims t2 clipped with
    | none => none
    | some calls => some (calls, { s2 with id_and_textures := t2 }, g2)

/-- The externally visible steps of one redraw, used to state the order of
operations of `on_draw` and `WindowWrapper::draw`. -/
inductive Step
  | takeInput
  | beginFrame
  | appDraw
  | endFrame
  | applyPendingFrees
  | tessellate
  | advanceFreeQueue
  | processDeltas
  | setClip
  | emitTriangles
deriving DecidableEq

/-- The step sequence of `WindowWrapper::draw` in source order: apply the
deferred frees of the previous frame (line 92), tessellate (line 95),
record the next deferred-free list (line 98), process the set entries of
the texture delta (line 109), then per tessellated batch set the clip
rectangle and emit its triangles (lines 112-161). -/
def wrapper_draw_steps (clipped : List ClippedPrimitive) : List Step :=
  [Step.applyPendingFrees, Step.tessellate, Step.advanceFreeQueue,
   Step.processDeltas] ++
    clipped.flatMap (fun _ => [Step.setClip, Step.emitTriangles])

/-- The step sequence of the `on_draw` callback (source lines 489-498):
take the pending input, begin the egui frame, run the application draw
callback, end the frame, then the steps of `WindowWrapper::draw`. -/
def on_draw_steps (clipped : List ClippedPrimitive) : List Step :=
  [Step.takeInput, Step.beginFrame, Step.appDraw, Step.endFrame] ++
    wrapper_draw_steps clipped

/-- `on_resize` (source lines 433-439): store the screen rectangle from
the origin to the reported size in the pending input. -/
def on_resize (s : WrapperState) (size_pixels : UVec2) : WrapperState :=
  { s with raw_input :=
      { s.raw_input with
        screen_rect := some ⟨⟨0, 0⟩, pos_from_uvec2 size_pixels⟩ } }

/-- `on_mouse_move`: record the position and queue a pointer-moved
event. -/
def on_mouse_move (s : WrapperState) (position : Vec2) : WrapperState :=
  { s with last_mouse_position := position,
           raw_input :=
      { s.raw_input with
        events := s.raw_input.events ++
          [Event.pointerMoved (pos2_from_speedy2d position)] } }

/-- `on_mouse_button_down` (source lines 521-541): a mapped button queues
a pressed pointer-button event stamped with the last mouse position and
the current modifier snapshot; an unmapped button queues nothing. -/
def on_mouse_button_down (s : WrapperState) (button : MouseButton) :
    WrapperState :=
  match pointer_button_from_speedy2d button with
  | some b =>
    { s with raw_input :=
        { s.raw_input with
          events := s.raw_input.events ++
            [Event.pointerButton (pos2_from_speedy2d s.last_mouse_position) b
              true (modifiers_from_speedy2d s.current_modifiers)] } }
  | none => s

/-- `on_mouse_button_up` (source lines 546-566): as for the press, with
`pressed` false. -/
def on_mouse_button_up (s : WrapperState) (button : MouseButton) :
    WrapperState :=
  match pointer_button_from_speedy2d button with
  | some b =>
    { s with raw_input :=
        { s.raw_input with
          events := s.raw_input.events ++
            [Event.pointerButton (pos2_from_speedy2d s.last_mouse_position) b
              false (modifiers_from_speedy2d s.current_modifiers)] } }
  | none => s

/-- `on_key_down` (source lines 586-603): a mapped key queues a key event
with `pressed` true, `repeat_` false, the current modifier snapshot, and
no physical key; an unmapped key queues nothing. -/
def on_key_down (s : WrapperState) (virtual_key_code : Option VirtualKeyCode) :
    WrapperState :=
  match key_from_speedy2d virtual_key_code with
  | some k =>
    { s with raw_input :=
        { s.raw_input with
          events := s.raw_input.events ++
            [Event.key k true false
              (modifiers_from_speedy2d s.current_modifiers) none] } }
  | none => s

/-- `on_key_up` (source lines 608-625): as for the press, with `pressed`
false. -/
def on_key_up (s : WrapperState) (virtual_key_code : Option VirtualKeyCode) :
    WrapperState :=
  match key_from_speedy2d virtual_key_code with
  | some k =>
    { s with raw_input :=
        { s.raw_input with
          events := s.raw_input.events ++
            [Event.key k false false
              (modifiers_from_speedy2d s.current_modifiers) none] } }
  | none => s

/-- `on_keyboard_modifiers_changed` (source lines 648-657): mirror the
snapshot and update the pending input modifiers. -/
def on_keyboard_modifiers_changed (s : WrapperState) (state : ModifiersState) :
    WrapperState :=
  { s with current_modifiers := state,
           raw_input :=
      { s.raw_input with modifiers := modifiers_from_speedy2d state } }

/-! Sample concrete inputs used by the witness and counterexample
theorems. -/

/-- A 1x1 color image payload. -/
def sampleImage : ImageData := ImageData.color (1, 1) [⟨0, 0, 0, 0⟩]

/-- A full-replace delta for `sampleImage`. -/
def sampleDelta : ImageDelta :=
  { image := sampleImage, options := TextureOptions.linear, pos := none }

/-- A partial-update delta (with a sub-rectangle position). -/
def samplePartialDelta : ImageDelta :=
  { image := sampleImage, options := TextureOptions.linear, pos := some (1, 2) }

/-- An all-false modifier snapshot. -/
def sampleModifiersState : ModifiersState :=
  { ctrl := false, alt := false, shift := false, logo := false }

/-- An empty pending-input buffer. -/
def sampleRawInput : RawInput :=
  { screen_rect := none, events := [],
    modifiers := modifiers_from_speedy2d sampleModifiersState }

/-- A wrapper state whose texture table holds managed identifier 7 with
host handle 5. -/
def sampleState : WrapperState :=
  { raw_input := sampleRawInput,
    id_and_textures := [(7, 5, RgbaImage.fromImage sampleImage)],
    to_free_textures := [],
    last_mouse_position := ⟨3, 4⟩,
    current_modifiers := sampleModifiersState }

/-- A frame output that frees managed texture 7 and sets nothing. -/
def sampleOutput : FullOutput :=
  { textures_delta := { set := [], free := [TextureId.managed 7] },
    pixels_per_point := 1 }

/-- The state left behind by `drawModel sampleState 0 sampleOutput []`. -/
def sampleResultState : WrapperState :=
  { raw_input := sampleRawInput,
    id_and_textures := [(7, 5, RgbaImage.fromImage sampleImage)],
    to_free_textures := [7],
    last_mouse_position := ⟨3, 4⟩,
    current_modifiers := sampleModifiersState }

/-- A frame output whose only delta is a partial update for a
user-managed texture identifier. -/
def sampleUserPartialOutput : FullOutput :=
  { textures_delta := { set := [(TextureId.user 0, samplePartialDelta)], free := [] },
    pixels_per_point := 1 }

/-- A clip rectangle. -/
def sampleRect : Rect := ⟨⟨0, 0⟩, ⟨10, 20⟩⟩

/-- A clipped batch holding a mesh over managed texture 7. -/
def sampleClipped : ClippedPrimitive :=
  ⟨sampleRect, Primitive.mesh ⟨[], [], TextureId.managed 7⟩⟩

/-- A clipped batch holding the unimplemented non-mesh primitive kind. -/
def sampleCallbackClipped : ClippedPrimitive :=
  ⟨sampleRect, Primitive.callback⟩

/-- A wrapper state with an empty texture table. -/
def sampleEmptyState : WrapperState :=
  { raw_input := sampleRawInput,
    id_and_textures := [],
    to_free_textures := [],
    last_mouse_position := ⟨0, 0⟩,
    current_modifiers := sampleModifiersState }

/-- A frame output with an empty texture delta. -/
def sampleEmptyOutput : FullOutput :=
  { textures_delta := { set := [], free := [] }, pixels_per_point := 1 }

/-! Helper lemmas about the association table and the draw pipeline. -/

theorem tblLookup_remove {α : Type} (i j : ℕ) (t : List (ℕ × α)) :
    tblLookup i (tblRemove j t) = if i = j then none else tblLookup i t := by
  induction t with
  | nil => by_cases h : i = j <;> simp [tblRemove, tblLookup, h]
  | cons e t ih =>
    by_cases hej : e.1 = j
    · rw [show tblRemove j (e :: t) = tblRemove j t from by simp [tblRemove, hej]]
      rw [ih]
      by_cases hij : i = j
      · simp [hij]
      · have hei : ¬e.1 = i := by rw [hej]; intro h; exact hij h.symm
        simp [tblLookup, hei, hij]
    · rw [show tblRemove j (e :: t) = e :: tblRemove j t from by
        simp [tblRemove, hej]]
      by_cases hei : e.1 = i
      · have hij : ¬i = j := fun h => hej (by rw [hei, h])
        simp [tblLookup, hei, hij]
      · simp [tblLookup, hei, ih]

theorem tblLookup_insert {α : Type} (i j : ℕ) (v : α) (t : List (ℕ × α)) :
    tblLookup i (tblInsert j v t) =
      if j = i then some v else tblLookup i t := by
  by_cases h : j = i
  · simp [tblInsert, tblLookup, h]
  · have h2 : ¬i = j := fun hh => h hh.symm
    simp [tblInsert, tblLookup, h, tblLookup_remove, h2]

theorem tblLookup_removeAll {α : Type} (i : ℕ) (l : List ℕ) :
    ∀ t : List (ℕ × α),
      tblLookup i (tblRemoveAll l t) = if i ∈ l then none else tblLookup i t := by
  induction l with
  | nil => intro t; simp [tblRemoveAll]
  | cons j l ih =>
    intro t
    have step : tblRemoveAll (j :: l) t = tblRemoveAll l (tblRemove j t) := rfl
    rw [step, ih, tblLookup_remove]
    by_cases hij : i = j <;> by_cases hmem : i ∈ l <;>
      simp [hij, hmem]

theorem setTexturesTable_preserves {i : ℕ} :
    ∀ (sets : List (TextureId × ImageDelta)) (t : List (ℕ × ℕ × RgbaImage))
      (g : ℕ) (t2 : List (ℕ × ℕ × RgbaImage)) (g2 : ℕ),
      setTexturesTable sets t g = some (t2, g2) →
      tblLookup i t ≠ none → tblLookup i t2 ≠ none := by
  intro sets
  induction sets with
  | nil =>
    intro t g t2 g2 hset hne
    simp [setTexturesTable] at hset
    rw [← hset.1]
    exact hne
  | cons e rest ih =>
    intro t g t2 g2 hset hne
    obtain ⟨tid, d⟩ := e
    cases tid with
    | user u => exact ih t g t2 g2 hset hne
    | managed j =>
      cases hpos : d.pos with
      | some q => simp [setTexturesTable, hpos] at hset
      | none =>
        simp only [setTexturesTable, hpos] at hset
        refine ih _ _ _ _ hset ?_
        rw [tblLookup_insert]
        by_cases hji : j = i
        · simp [hji]
        · rw [if_neg hji]; exact hne

theorem setTexturesTable_partial_abort {i : ℕ} {d : ImageDelta}
    (hpos : d.pos.isSome = true) :
    ∀ (sets : List (TextureId × ImageDelta)) (t : List (ℕ × ℕ × RgbaImage))
      (g : ℕ), (TextureId.managed i, d) ∈ sets →
      setTexturesTable sets t g = none := by
  intro sets
  induction sets with
  | nil => intro t g hmem; simp at hmem
  | cons e rest ih =>
    intro t g hmem
    rcases List.mem_cons.mp hmem with he | he
    · obtain ⟨q, hq⟩ := Option.isSome_iff_exists.mp hpos
      rw [← he]
      simp [setTexturesTable, hq]
    · obtain ⟨tid, d2⟩ := e
      cases tid with
      | user u => exact ih t g he
      | managed j =>
        cases hq : d2.pos with
        | some q => simp [setTexturesTable, hq]
        | none => simp only [setTexturesTable, hq]; exact ih _ _ he

theorem processPrims_abort {cp : ClippedPrimitive}
    {t : List (ℕ × ℕ × RgbaImage)} (hbad : primCalls t cp = none) :
    ∀ prims : List ClippedPrimitive, cp ∈ prims →
      processPrims t prims = none := by
  intro prims
  induction prims with
  | nil => intro hmem; simp at hmem
  | cons q rest ih =>
    intro hmem
    rcases List.mem_cons.mp hmem with he | he
    · rw [← he] at *
      simp [processPrims, hbad]
    · match hq : primCalls t q with
      | none => simp [processPrims, hq]
      | some cs => simp [processPrims, hq, ih he]

theorem chunks3_length {α : Type} : ∀ l : List α,
    (chunks3 l).length = l.length / 3
  | [] => by simp [chunks3]
  | [a] => by simp [chunks3]
  | [a, b] => by simp [chunks3]
  | a :: b :: c :: rest => by
    have ih := chunks3_length rest
    simp only [chunks3, List.length_cons, ih]
    omega

/-- The key-mapping match of the source agrees pointwise with the closed
table the spec describes. -/
theorem key_map_agrees : ∀ k : Option VirtualKeyCode,
    key_from_speedy2d k = specKeyForHostKey k := by decide

/-- C1: every triangle emitted by the mesh-to-drawcall converter computes
the 2D cross product of its three positions; when it is nonnegative
(counter-clockwise) the second and third vertices are swapped consistently
across the position, color and UV triples, and when it is negative the
triangle is emitted with its vertex order unchanged. -/
theorem emitTriangle_winding (v0 v1 v2 : Vertex) (handle : ℕ) :
    emitTriangle v0 v1 v2 handle =
      if 0 ≤ cross2 (vec2_from_egui v0.pos) (vec2_from_egui v1.pos)
          (vec2_from_egui v2.pos) then
        DrawCall.triangle
          (vec2_from_egui v0.pos, vec2_from_egui v2.pos, vec2_from_egui v1.pos)
          (color_from_egui v0.color, color_from_egui v2.color,
            color_from_egui v1.color)
          (vec2_from_egui v0.uv, vec2_from_egui v2.uv, vec2_from_egui v1.uv)
          handle
      else
        DrawCall.triangle
          (vec2_from_egui v0.pos, vec2_from_egui v1.pos, vec2_from_egui v2.pos)
          (color_from_egui v0.color, color_from_egui v1.color,
            color_from_egui v2.color)
          (vec2_from_egui v0.uv, vec2_from_egui v1.uv, vec2_from_egui v2.uv)
          handle := by
  by_cases h : 0 ≤ cross2 (vec2_from_egui v0.pos) (vec2_from_egui v1.pos)
      (vec2_from_egui v2.pos) <;>
    simp [emitTriangle, h]

/-- Vertices of a counter-clockwise triangle with distinct colors and
UVs. -/
def vertCCW0 : Vertex := ⟨⟨0, 0⟩, ⟨0, 0⟩, ⟨1, 2, 3, 4⟩⟩

/-- Second vertex of the sample triangle. -/
def vertCCW1 : Vertex := ⟨⟨1, 0⟩, ⟨1, 0⟩, ⟨5, 6, 7, 8⟩⟩

/-- Third vertex of the sample triangle. -/
def vertCCW2 : Vertex := ⟨⟨0, 1⟩, ⟨0, 1⟩, ⟨9, 10, 11, 12⟩⟩

/-- Witness for C1: the counter-clockwise sample triangle is emitted with
positions, colors and UVs all swapped, and the already-clockwise reversed
triangle is emitted unchanged, giving the same draw call. -/
theorem emitTriangle_winding_check :
    emitTriangle vertCCW0 vertCCW1 vertCCW2 9 =
      DrawCall.triangle (⟨0, 0⟩, ⟨0, 1⟩, ⟨1, 0⟩)
        (⟨1, 2, 3, 4⟩, ⟨9, 10, 11, 12⟩, ⟨5, 6, 7, 8⟩)
        (⟨0, 0⟩, ⟨0, 1⟩, ⟨1, 0⟩) 9 ∧
    emitTriangle vertCCW0 vertCCW2 vertCCW1 9 =
      DrawCall.triangle (⟨0, 0⟩, ⟨0, 1⟩, ⟨1, 0⟩)
        (⟨1, 2, 3, 4⟩, ⟨9, 10, 11, 12⟩, ⟨5, 6, 7, 8⟩)
        (⟨0, 0⟩, ⟨0, 1⟩, ⟨1, 0⟩) 9 := by
  have hpos : 0 ≤ cross2 (vec2_from_egui vertCCW0.pos)
      (vec2_from_egui vertCCW1.pos) (vec2_from_egui vertCCW2.pos) := by
    norm_num [cross2, vec2_from_egui, vertCCW0, vertCCW1, vertCCW2]
  have hneg : ¬0 ≤ cross2 (vec2_from_egui vertCCW0.pos)
      (vec2_from_egui vertCCW2.pos) (vec2_from_egui vertCCW1.pos) := by
    norm_num [cross2, vec2_from_egui, vertCCW0, vertCCW1, vertCCW2]
  constructor
  · rw [emitTriangle_winding, if_pos hpos]
    rfl
  · rw [emitTriangle_winding, if_neg hneg]
    rfl

/-- C2: a managed texture identifier listed in frame N's free delta is not
removed from the table used by frame N's own draw calls (the set-entry
pass only preserves presence), it is recorded in the deferred-free queue,
and it is removed from the table by the `free_textures` pass that opens
frame N+1's draw processing. -/
theorem texture_free_deferred (s : WrapperState) (g : ℕ) (out1 : FullOutput)
    (clipped1 : List ClippedPrimitive) (i : ℕ)
    (hfree : TextureId.managed i ∈ out1.textures_delta.free) :
    (∀ t2 g2,
        setTexturesTable out1.textures_delta.set
          (free_textures s).id_and_textures g = some (t2, g2) →
        tblLookup i (free_textures s).id_and_textures ≠ none →
        tblLookup i t2 ≠ none) ∧
    (∀ calls r g2, drawModel s g out1 clipped1 = some (calls, r, g2) →
        i ∈ r.to_free_textures ∧
        tblLookup i (free_textures r).id_and_textures = none) := by
  constructor
  · intro t2 g2 hset hne
    exact setTexturesTable_preserves _ _ _ _ _ hset hne
  · intro calls r g2 hdraw
    cases hset : setTexturesTable out1.textures_delta.set
        (free_textures s).id_and_textures g with
    | none => simp [drawModel, hset] at hdraw
    | some p =>
      obtain ⟨t2, g2x⟩ := p
      cases hpp : processPrims t2 clipped1 with
      | none => simp [drawModel, hset, hpp] at hdraw
      | some calls2 =>
        simp only [drawModel, hset, hpp] at hdraw
        obtain ⟨hc, hr, hg⟩ := hdraw
        have hmem : i ∈ next_free_list out1.textures_delta.free :=
          List.mem_filterMap.mpr ⟨TextureId.managed i, hfree, rfl⟩
        constructor
        · exact hmem
        · show tblLookup i
            (tblRemoveAll (next_free_list out1.textures_delta.free) t2) = none
          rw [tblLookup_removeAll]
          simp [hmem]

/-- Witness for C2: with a table holding managed texture 7 and a frame
that frees it, the identifier is queued after the frame and gone once the
next frame's opening free pass runs. -/
theorem texture_free_deferred_check :
    7 ∈ sampleResultState.to_free_textures ∧
    tblLookup 7 (free_textures sampleResultState).id_and_textures = none := by
  have h := texture_free_deferred sampleState 0 sampleOutput [] 7 (by decide)
  exact h.2 [] sampleResultState 0 (by decide)

/-- C3 counterexample: in a concrete redraw the tessellate step sits at
position 5 of the step trace while texture-delta processing sits at
position 7, and the deferred-free queue is advanced (position 6) before
the deltas and the batches; the claimed order (deltas at step 5 before
tessellation at step 6, queue advance last) does not hold. -/
theorem step_order_claim_fails :
    (on_draw_steps [sampleClipped])[5]? = some Step.tessellate ∧
    (on_draw_steps [sampleClipped])[6]? = some Step.advanceFreeQueue ∧
    (on_draw_steps [sampleClipped])[7]? = some Step.processDeltas ∧
    (on_draw_steps [sampleClipped])[8]? = some Step.setClip := by decide

/-- C3 (amended): every redraw performs, in this fixed order: take the
pending input, begin the UI frame, run the application draw callback, end
the frame, apply the previous frame's deferred frees, tessellate, record
this frame's free delta as the next frame's deferred-free queue, process
the texture set entries; after these eight steps only per-batch clip
setting and triangle emission follow. -/
theorem on_draw_step_order (clipped : List ClippedPrimitive) :
    (on_draw_steps clipped).take 8 =
      [Step.takeInput, Step.beginFrame, Step.appDraw, Step.endFrame,
       Step.applyPendingFrees, Step.tessellate, Step.advanceFreeQueue,
       Step.processDeltas] ∧
    ∀ st ∈ (on_draw_steps clipped).drop 8,
      st = Step.setClip ∨ st = Step.emitTriangles := by
  constructor
  · rfl
  · intro st hst
    simp only [on_draw_steps, wrapper_draw_steps, List.cons_append,
      List.nil_append, List.drop_succ_cons, List.drop_zero] at hst
    rw [List.mem_flatMap] at hst
    obtain ⟨cp, hcp, hmem⟩ := hst
    simpa using hmem

/-- Witness for C3 (amended): the eight leading steps of a concrete
redraw, in order. -/
theorem on_draw_step_order_check :
    (on_draw_steps []).take 8 =
      [Step.takeInput, Step.beginFrame, Step.appDraw, Step.endFrame,
       Step.applyPendingFrees, Step.tessellate, Step.advanceFreeQueue,
       Step.processDeltas] :=
  (on_draw_step_order []).1

/-- C4 counterexample: a redraw whose only texture delta is a partial
update (sub-rectangle position) for a user-managed identifier completes
without aborting, because user entries are skipped before the partial
update test. -/
theorem partial_update_user_id_no_abort :
    (drawModel sampleEmptyState 0 sampleUserPartialOutput []).isSome = true := by
  decide

/-- C4 (amended): the draw pipeline aborts (fatally, not recoverably) when
the tessellated batches contain a primitive kind other than a triangle
mesh, when the texture delta contains a set entry for a library-managed
identifier carrying a sub-rectangle position, or when a mesh references a
managed identifier that is absent from the texture table in force for the
draw calls. -/
theorem draw_fatal_conditions (s : WrapperState) (g : ℕ) (out : FullOutput)
    (clipped : List ClippedPrimitive)
    (h :
      (∃ cp ∈ clipped, cp.primitive = Primitive.callback) ∨
      (∃ i d, (TextureId.managed i, d) ∈ out.textures_delta.set ∧
        d.pos.isSome = true) ∨
      (∃ t2 g2 cp m i,
        setTexturesTable out.textures_delta.set
          (free_textures s).id_and_textures g = some (t2, g2) ∧
        cp ∈ clipped ∧ cp.primitive = Primitive.mesh m ∧
        m.texture_id = TextureId.managed i ∧ tblLookup i t2 = none)) :
    drawModel s g out clipped = none := by
  rcases h with ⟨cp, hcp, hprim⟩ | ⟨i, d, hmem, hpos⟩ |
    ⟨t2, g2, cp, m, i, hset, hcp, hprim, htex, hlook⟩
  · cases hset : setTexturesTable out.textures_delta.set
        (free_textures s).id_and_textures g with
    | none => simp [drawModel, hset]
    | some p =>
      obtain ⟨t2, g2⟩ := p
      have hbad : primCalls t2 cp = none := by simp [primCalls, hprim]
      simp [drawModel, hset, processPrims_abort hbad clipped hcp]
  · have habort := setTexturesTable_partial_abort hpos
      out.textures_delta.set (free_textures s).id_and_textures g hmem
    simp [drawModel, habort]
  · have hbad : primCalls t2 cp = none := by
      simp [primCalls, hprim, htex, hlook]
    simp [drawModel, hset, processPrims_abort hbad clipped hcp]

/-- Witness for C4 (amended): a redraw whose batches contain the non-mesh
primitive kind aborts. -/
theorem draw_fatal_conditions_check :
    drawModel sampleEmptyState 0 sampleEmptyOutput [sampleCallbackClipped] =
      none := by
  apply draw_fatal_conditions
  exact Or.inl ⟨sampleCallbackClipped, List.Mem.head _, rfl⟩

/-- C5: the key mapping is a pure total function agreeing pointwise with
the closed table of the spec (letters, F1 to F20, numpad digits, tab,
escape, enter, space, backspace, arrows, insert, home, delete, end,
page-up, page-down; everything else, the absent key included, maps to
nothing), and every queued key event carries `repeat_` false. -/
theorem key_mapping_total (s : WrapperState)
    (virtual_key_code : Option VirtualKeyCode) :
    (∀ k : Option VirtualKeyCode,
      key_from_speedy2d k = specKeyForHostKey k) ∧
    (on_key_down s virtual_key_code).raw_input.events =
      s.raw_input.events ++
        (match key_from_speedy2d virtual_key_code with
         | some k => [Event.key k true false
            (modifiers_from_speedy2d s.current_modifiers) none]
         | none => []) ∧
    (on_key_up s virtual_key_code).raw_input.events =
      s.raw_input.events ++
        (match key_from_speedy2d virtual_key_code with
         | some k => [Event.key k false false
            (modifiers_from_speedy2d s.current_modifiers) none]
         | none => []) := by
  refine ⟨key_map_agrees, ?_, ?_⟩
  · cases h : key_from_speedy2d virtual_key_code <;> simp [on_key_down, h]
  · cases h : key_from_speedy2d virtual_key_code <;> simp [on_key_up, h]

/-- Witness for C5: pressing the letter A queues exactly one key event,
mapped to the UI key A, with the repeat flag false. -/
theorem key_mapping_total_check :
    (on_key_down sampleState (some VirtualKeyCode.A)).raw_input.events =
      [Event.key EguiKey.A true false
        (modifiers_from_speedy2d sampleModifiersState) none] := by
  have h := (key_mapping_total sampleState (some VirtualKeyCode.A)).2.1
  rw [h]; decide

/-- C6: a left, right or middle mouse button press or release queues
exactly one pointer-button event with the corresponding identity
(primary, secondary, middle), the correct pressed flag, the last recorded
mouse position and the last recorded modifier snapshot; any other button
queues nothing. -/
theorem mouse_button_events (s : WrapperState) (button : MouseButton) :
    (on_mouse_button_down s button).raw_input.events =
      s.raw_input.events ++
        (match pointer_button_from_speedy2d button with
         | some b => [Event.pointerButton
            (pos2_from_speedy2d s.last_mouse_position) b true
            (modifiers_from_speedy2d s.current_modifiers)]
         | none => []) ∧
    (on_mouse_button_up s button).raw_input.events =
      s.raw_input.events ++
        (match pointer_button_from_speedy2d button with
         | some b => [Event.pointerButton
            (pos2_from_speedy2d s.last_mouse_position) b false
            (modifiers_from_speedy2d s.current_modifiers)]
         | none => []) ∧
    pointer_button_from_speedy2d MouseButton.left = some PointerButton.primary ∧
    pointer_button_from_speedy2d MouseButton.right =
      some PointerButton.secondary ∧
    pointer_button_from_speedy2d MouseButton.middle =
      some PointerButton.middle ∧
    (∀ n : ℕ, pointer_button_from_speedy2d (MouseButton.other n) = none) := by
  refine ⟨?_, ?_, rfl, rfl, rfl, fun n => rfl⟩
  · cases h : pointer_button_from_speedy2d button <;>
      simp [on_mouse_button_down, h]
  · cases h : pointer_button_from_speedy2d button <;>
      simp [on_mouse_button_up, h]

/-- Witness for C6: a left press on the sample state queues one primary
pointer-button event at the recorded mouse position. -/
theorem mouse_button_events_check :
    (on_mouse_button_down sampleState MouseButton.left).raw_input.events =
      [Event.pointerButton ⟨3, 4⟩ PointerButton.primary true
        (modifiers_from_speedy2d sampleModifiersState)] := by
  have h := (mouse_button_events sampleState MouseButton.left).1
  rw [h]; decide

/-- C7: a resize stores the screen rectangle from the origin to the
reported size in the pending input, and the input taken by the next
frame's begin-frame step carries exactly that rectangle. -/
theorem resize_screen_rect (s : WrapperState) (size_pixels : UVec2) :
    (on_resize s size_pixels).raw_input.screen_rect =
      some ⟨⟨0, 0⟩, ⟨(size_pixels.x : ℚ), (size_pixels.y : ℚ)⟩⟩ ∧
    ((on_resize s size_pixels).raw_input.take).1.screen_rect =
      some ⟨⟨0, 0⟩, ⟨(size_pixels.x : ℚ), (size_pixels.y : ℚ)⟩⟩ :=
  ⟨rfl, rfl⟩

/-- Witness for C7: resizing to 640 by 480 stores the rectangle from the
origin to (640, 480). -/
theorem resize_screen_rect_check :
    (on_resize sampleEmptyState ⟨640, 480⟩).raw_input.screen_rect =
      some ⟨⟨0, 0⟩, ⟨640, 480⟩⟩ := by
  have h := (resize_screen_rect sampleEmptyState ⟨640, 480⟩).1
  rw [h]; decide

/-- C8: the translated modifier set has alt, ctrl and shift equal to the
host flags, its command flag equal to the host ctrl flag, and the
Mac-specific command flag always false. -/
theorem modifiers_mapping (m : ModifiersState) :
    (modifiers_from_speedy2d m).alt = m.alt ∧
    (modifiers_from_speedy2d m).ctrl = m.ctrl ∧
    (modifiers_from_speedy2d m).shift = m.shift ∧
    (modifiers_from_speedy2d m).command = m.ctrl ∧
    (modifiers_from_speedy2d m).mac_cmd = false :=
  ⟨rfl, rfl, rfl, rfl, rfl⟩

/-- Witness for C8: with ctrl held, the translated command flag is set. -/
theorem modifiers_mapping_check :
    (modifiers_from_speedy2d ⟨true, false, true, false⟩).command = true :=
  (modifiers_mapping ⟨true, false, true, false⟩).2.2.2.1

/-- C9: user-managed texture identifiers are skipped everywhere: a set
entry for a user identifier changes neither the table nor the handle
allocator, a user identifier contributes nothing to the deferred-free
queue, and a mesh over a user identifier emits only its clip-rectangle
call and no triangles. -/
theorem user_texture_skipped (t : List (ℕ × ℕ × RgbaImage)) (g u : ℕ)
    (d : ImageDelta) (rest : List (TextureId × ImageDelta))
    (free_rest : List TextureId) (clip : Rect) (indices : List ℕ)
    (vertices : List Vertex) :
    setTexturesTable ((TextureId.user u, d) :: rest) t g =
      setTexturesTable rest t g ∧
    next_free_list (TextureId.user u :: free_rest) =
      next_free_list free_rest ∧
    primCalls t ⟨clip, Primitive.mesh ⟨indices, vertices, TextureId.user u⟩⟩ =
      some [DrawCall.setClip (rect_from_egui clip)] :=
  ⟨rfl, rfl, rfl⟩

/-- Witness for C9: a user set entry with a partial-update position is
skipped outright, leaving an unchanged empty table. -/
theorem user_texture_skipped_check :
    setTexturesTable [(TextureId.user 0, samplePartialDelta)] [] 0 =
      some ([], 0) := by
  have h := (user_texture_skipped [] 0 0 samplePartialDelta [] []
    sampleRect [] []).1
  rw [h]; decide

/-- C10: a triangle mesh with in-bounds indices yields exactly
floor(index-count / 3) triangle draw calls; a trailing remainder of one or
two indices is dropped. -/
theorem meshTriangles_count (vertices : List Vertex) (indices : List ℕ)
    (handle : ℕ) (_hin : ∀ i ∈ indices, i < vertices.length) :
    (meshTriangles vertices indices handle).length = indices.length / 3 := by
  unfold meshTriangles
  rw [List.length_map, chunks3_length]

/-- Witness for C10: four in-bounds indices yield one triangle, the
trailing index dropped. -/
theorem meshTriangles_count_check :
    (meshTriangles [defaultVertex, defaultVertex, defaultVertex, defaultVertex]
      [0, 1, 2, 3] 11).length = 1 := by
  have h := meshTriangles_count
    [defaultVertex, defaultVertex, defaultVertex, defaultVertex]
    [0, 1, 2, 3] 11 (by decide)
  simpa using h

end EguiSpeedy2d
